import Mathlib

/-!
Verification development for the AB-signup challenge-broker modules
(`captcha_solver.py` and `sms_service.py`).

The Python modules are shallowly embedded as executable Lean functions:

* HTTP round trips are modelled by oracles: a function from the poll index to
  the provider's decoded response.  Each embedded operation additionally
  returns the list of provider requests it issued, so that properties about
  "how many polls", "which activation id", and "was a cancel sent" are
  statements about that request trace.
* Python `while` loops are embedded with an explicit fuel argument, by
  structural recursion so that every definition evaluates by `decide`/`rfl`.
  Fuel exhaustion returns the same value as the loop's normal exit; the
  wrappers pass `timeout + 1` fuel, which is never exhausted when the poll
  interval is at least 1 (the intervals in the source are the literals 3 and
  5), so the embedding agrees with the source loop on every run used here.
* Python truthiness of strings/optional strings and Python's `or` chaining on
  possibly-absent strings are modelled explicitly (`pyTruthyStr`, `pyOrStr`).
* `String.startsWith`, `split(":")` and `lower()` are given structural
  re-implementations (`pyStartsWith`, `pySplitChar`, `pyToLower`) because the
  library versions do not reduce inside the kernel.
* Monetary cost values are modelled as rationals; the code only passes them
  through unchanged, so no rounding questions arise.
-/

/-- Python truthiness of an optional string: `None` and `""` are falsy. -/
def pyTruthyStr : Option String → Bool
  | some s => !(s == "")
  | none => false

/-- Python `a or b` on two possibly-absent strings: `a` unless it is falsy. -/
def pyOrStr : Option String → Option String → Option String
  | some s, b => if s == "" then b else some s
  | none, b => b

/-- Structural model of Python `s.startswith(pre)`. -/
def pyStartsWith (s pre : String) : Bool :=
  pre.data.isPrefixOf s.data

/-- Helper for `pySplitChar`: splits the remaining characters at `c`,
`acc` holding the (reversed) characters of the current field. -/
def pySplitCharAux (c : Char) : List Char → List Char → List String
  | [], acc => [String.mk acc.reverse]
  | d :: rest, acc =>
    if d = c then String.mk acc.reverse :: pySplitCharAux c rest []
    else pySplitCharAux c rest (d :: acc)

/-- Structural model of Python `s.split(c)` for a one-character separator. -/
def pySplitChar (s : String) (c : Char) : List String :=
  pySplitCharAux c s.data []

/-- Structural model of Python `s.lower()`. -/
def pyToLower (s : String) : String :=
  String.mk (s.data.map Char.toLower)

/-- Absence of a configured API key: the environment variable is unset, or set
to the empty string (falsy in Python, so `api_key or os.getenv(...)` and the
subsequent `if not self.api_key` treat it as missing). -/
def absentKey (o : Option String) : Prop :=
  o = none ∨ o = some ""

instance (o : Option String) : Decidable (absentKey o) := by
  unfold absentKey; infer_instance

/-! ## captcha_solver.py — data model -/

/-- Dataclass `CaptchaSolution`.  `token` and `task_id` are optional because
the source populates them from `dict.get` lookups that can yield `None`.
`cost` defaults to `0.0` in the dataclass. -/
structure CaptchaSolution where
  token : Option String
  task_id : Option String
  provider : String
  cost : ℚ
  deriving DecidableEq, Repr

/-- The `"solution"` object of a CapSolver response; the source reads the keys
`gRecaptchaResponse`, `token` and `text` from it. -/
structure CapSolutionObj where
  gRecaptchaResponse : Option String
  token : Option String
  text : Option String
  deriving DecidableEq, Repr

/-- Decoded JSON of a CapSolver `createTask` response.  A `solution` value of
`none` covers both an absent and an empty (falsy) `"solution"` field. -/
structure CapCreateResponse where
  errorId : Int
  errorDescription : Option String
  taskId : Option String
  solution : Option CapSolutionObj
  deriving DecidableEq, Repr

/-- Decoded JSON of a CapSolver `getTaskResult` response. -/
structure CapPollResponse where
  errorId : Int
  errorDescription : Option String
  status : Option String
  solution : Option CapSolutionObj
  cost : Option ℚ
  deriving DecidableEq, Repr

/-- A CapSolver task payload as built by the `solve_*` helpers (only the
fields common to all task kinds are modelled; the claims below do not
inspect task payloads beyond identity). -/
structure CapTask where
  type : String
  websiteURL : String
  websiteKey : String
  deriving DecidableEq, Repr

/-- Requests a CapSolver client can issue to the vendor.  `cancelTask` is the
vendor's task-cancellation endpoint; it appears here so that claims about
cancellation can be stated — the source code never issues it. -/
inductive CapRequest
  | createTask (task : CapTask)
  | getTaskResult (n : ℕ)
  | cancelTask
  deriving DecidableEq, Repr

/-- Errors raised by the captcha flow: `Exception("Failed to create task: …")`,
`Exception("Task failed: …")`, `TimeoutError(f"CAPTCHA not solved within
{timeout} seconds")`, and `NotImplementedError("Turnstile solving requires
CapSolver")` at the broker level. -/
inductive CaptchaError
  | createFailed (desc : Option String)
  | taskFailed (desc : Option String)
  | timedOut (timeout : ℕ)
  | notImplemented
  deriving DecidableEq, Repr

/-! ## captcha_solver.py — CapSolverClient -/

namespace CapSolverClient

/-- Polling loop of `CapSolverClient._create_and_wait` (the `while elapsed <
timeout` loop with the hardcoded `poll_interval = 3`).  `oracle n` is the
decoded response to the `n`-th `getTaskResult` request, `latency n` the
wall-clock duration of that round trip.  `clock` instruments wall-clock time
(each iteration spends 3 units in `asyncio.sleep` plus `latency n` in the
poll round trip); the source's `elapsed` counter advances by 3 per iteration
and ignores the latency.  Fuel exhaustion returns the loop-exit value. -/
def pollLoop (oracle : ℕ → CapPollResponse) (latency : ℕ → ℕ)
    (task_id : Option String) (timeout : ℕ) :
    ℕ → ℕ → ℕ → ℕ → Except CaptchaError CaptchaSolution × List CapRequest × ℕ
  | 0, _, _, clock => (.error (.timedOut timeout), [], clock)
  | fuel + 1, elapsed, n, clock =>
    if elapsed < timeout then
      let elapsed' := elapsed + 3
      let clock' := clock + 3 + latency n
      let r := oracle n
      if r.errorId ≠ 0 then
        (.error (.taskFailed r.errorDescription), [.getTaskResult n], clock')
      else if r.status = some "ready" then
        let sol := r.solution.getD ⟨none, none, none⟩
        let token := pyOrStr (pyOrStr sol.gRecaptchaResponse sol.token) sol.text
        (.ok ⟨token, task_id, "capsolver", r.cost.getD 0⟩, [.getTaskResult n], clock')
      else
        let rest := pollLoop oracle latency task_id timeout fuel elapsed' (n + 1) clock'
        (rest.1, .getTaskResult n :: rest.2.1, rest.2.2)
    else
      (.error (.timedOut timeout), [], clock)

/-- `CapSolverClient._create_and_wait`.  `create` is the decoded response to
the `createTask` request (the source's `timeout` parameter defaults to 120).
Returns the result, the trace of issued requests, and the instrumented
wall-clock time elapsed after task creation. -/
def create_and_wait (task : CapTask) (create : CapCreateResponse)
    (oracle : ℕ → CapPollResponse) (latency : ℕ → ℕ) (timeout : ℕ) :
    Except CaptchaError CaptchaSolution × List CapRequest × ℕ :=
  if create.errorId ≠ 0 then
    (.error (.createFailed create.errorDescription), [.createTask task], 0)
  else
    match create.solution with
    | some sol =>
      (.ok ⟨pyOrStr sol.gRecaptchaResponse sol.token, create.taskId, "capsolver", 0⟩,
        [.createTask task], 0)
    | none =>
      let rest := pollLoop oracle latency create.taskId timeout (timeout + 1) 0 0 0
      (rest.1, .createTask task :: rest.2.1, rest.2.2)

/-- Task payload built by `CapSolverClient.solve_turnstile`. -/
def turnstileTask (site_key url : String) : CapTask :=
  ⟨"AntiTurnstileTaskProxyLess", url, site_key⟩

end CapSolverClient

/-! ## captcha_solver.py — TwoCaptchaClient -/

/-- Decoded JSON of a 2Captcha `in.php` response. -/
structure TwoCreateResponse where
  status : Int
  request : Option String
  deriving DecidableEq, Repr

/-- Decoded JSON of a 2Captcha `res.php` polling response.  The JSON body may
carry further fields such as a reported `cost`; the client code reads only
`status` and `request`, so the `cost` field here exists purely to let a stub
report one. -/
structure TwoPollResponse where
  status : Int
  request : Option String
  cost : Option ℚ
  deriving DecidableEq, Repr

/-- Requests a 2Captcha client issues: task submission (`in.php`) and result
polls (`res.php`). -/
inductive TwoRequest
  | inPhp
  | resPhp (n : ℕ)
  deriving DecidableEq, Repr

namespace TwoCaptchaClient

/-- Polling loop of `TwoCaptchaClient._create_and_wait` (hardcoded
`poll_interval = 5`).  Fuel exhaustion returns the loop-exit value. -/
def pollLoop (oracle : ℕ → TwoPollResponse) (task_id : Option String) (timeout : ℕ) :
    ℕ → ℕ → ℕ → Except CaptchaError CaptchaSolution × List TwoRequest
  | 0, _, _ => (.error (.timedOut timeout), [])
  | fuel + 1, elapsed, n =>
    if elapsed < timeout then
      let elapsed' := elapsed + 5
      let r := oracle n
      if r.status = 1 then
        (.ok ⟨r.request, task_id, "2captcha", 0⟩, [.resPhp n])
      else if r.request ≠ some "CAPCHA_NOT_READY" then
        (.error (.taskFailed r.request), [.resPhp n])
      else
        let rest := pollLoop oracle task_id timeout fuel elapsed' (n + 1)
        (rest.1, .resPhp n :: rest.2)
    else
      (.error (.timedOut timeout), [])

/-- `TwoCaptchaClient._create_and_wait`.  `create` is the decoded `in.php`
response (`status != 1` is a synchronous rejection; otherwise `request` is
the task id).  The source's `timeout` parameter defaults to 120. -/
def create_and_wait (create : TwoCreateResponse)
    (oracle : ℕ → TwoPollResponse) (timeout : ℕ) :
    Except CaptchaError CaptchaSolution × List TwoRequest :=
  if create.status ≠ 1 then
    (.error (.createFailed create.request), [.inPhp])
  else
    let rest := pollLoop oracle create.request timeout (timeout + 1) 0 0
    (rest.1, .inPhp :: rest.2)

end TwoCaptchaClient

/-! ## captcha_solver.py — CaptchaSolver broker -/

/-- The provider selected by `CaptchaSolver.__aenter__`, with its API key. -/
inductive CaptchaProvider
  | capsolver (api_key : String)
  | twocaptcha (api_key : String)
  deriving DecidableEq, Repr

/-- `CapSolverClient.__init__`: `self.api_key = api_key or
os.getenv("CAPSOLVER_API_KEY")`, then `ValueError` if falsy. -/
def CapSolverClient.init (api_key envKey : Option String) : Except String String :=
  match pyOrStr api_key envKey with
  | some k => if k == "" then .error "CAPSOLVER_API_KEY not configured" else .ok k
  | none => .error "CAPSOLVER_API_KEY not configured"

/-- `TwoCaptchaClient.__init__` with `TWO_CAPTCHA_API_KEY`. -/
def TwoCaptchaClient.init (api_key envKey : Option String) : Except String String :=
  match pyOrStr api_key envKey with
  | some k => if k == "" then .error "TWO_CAPTCHA_API_KEY not configured" else .ok k
  | none => .error "TWO_CAPTCHA_API_KEY not configured"

/-- `CaptchaSolver.__aenter__`: construct the preferred provider's client, on
`ValueError` construct the alternate, on a second `ValueError` raise the
no-provider error.  `capKey`/`twoKey` are the environment values of
`CAPSOLVER_API_KEY`/`TWO_CAPTCHA_API_KEY`.  Besides the selection the source
only constructs an `aiohttp.ClientSession`, which issues no HTTP request, so
the returned request trace (URLs contacted during entry) is empty. -/
def CaptchaSolver.aenter (preferred : String) (capKey twoKey : Option String) :
    Except String CaptchaProvider × List String :=
  let first := if preferred == "capsolver"
    then (CapSolverClient.init none capKey).map CaptchaProvider.capsolver
    else (TwoCaptchaClient.init none twoKey).map CaptchaProvider.twocaptcha
  match first with
  | .ok p => (.ok p, [])
  | .error _ =>
    let second := if preferred == "capsolver"
      then (TwoCaptchaClient.init none twoKey).map CaptchaProvider.twocaptcha
      else (CapSolverClient.init none capKey).map CaptchaProvider.capsolver
    match second with
    | .ok p => (.ok p, [])
    | .error _ =>
      (.error "No CAPTCHA solver configured. Set CAPSOLVER_API_KEY or TWO_CAPTCHA_API_KEY", [])

/-- `CaptchaSolver.solve_turnstile`: raises `NotImplementedError` unless the
selected provider is the CapSolver client; otherwise delegates to
`CapSolverClient.solve_turnstile`, i.e. `_create_and_wait` on the Turnstile
task payload with the default 120-second timeout. -/
def CaptchaSolver.solve_turnstile (provider : CaptchaProvider)
    (create : CapCreateResponse) (oracle : ℕ → CapPollResponse) (latency : ℕ → ℕ)
    (site_key url : String) :
    Except CaptchaError CaptchaSolution × List CapRequest :=
  match provider with
  | .twocaptcha _ => (.error .notImplemented, [])
  | .capsolver _ =>
    let r := CapSolverClient.create_and_wait (CapSolverClient.turnstileTask site_key url)
      create oracle latency 120
    (r.1, r.2.1)

/-! ## sms_service.py — data model -/

/-- Dataclass `PhoneNumber`.  The `expires_at` field of the source dataclass
defaults to `None` and is never populated or read, so it is omitted. -/
structure PhoneNumber where
  number : String
  country : String
  activation_id : String
  provider : String
  deriving DecidableEq, Repr

/-- Errors raised by `get_number`: `Exception("No numbers available for this
service/country")`, `Exception("Insufficient balance")`, and
`Exception(f"Failed to get number: {result}")`. -/
inductive GetNumberError
  | noNumbers
  | noBalance
  | other (reply : String)
  deriving DecidableEq, Repr

/-- Errors raised around `wait_for_code`: `ValueError("No phone number
acquired. Call get_number() first.")` at the broker level,
`Exception("Activation was cancelled")` from `get_code`, and
`TimeoutError(f"No code received within {timeout} seconds")`. -/
inductive SMSWaitError
  | noActiveLease
  | activationCancelled
  | timedOut (timeout : ℕ)
  deriving DecidableEq, Repr

/-- Requests an SMS-Activate client issues (`handler_api.php` actions).
`getStatus` and `setStatus` carry the activation id they are issued for;
`getStatus` also carries the poll index. -/
inductive SARequest
  | getNumber (service_code country : String)
  | getStatus (id : String) (n : ℕ)
  | setStatus (id : String) (status : Int)
  deriving DecidableEq, Repr

/-- Requests a 5sim client issues. -/
inductive FSRequest
  | buy (country operator_ service_code : String)
  | check (id : String) (n : ℕ)
  | finish (id : String)
  | cancel (id : String)
  deriving DecidableEq, Repr

/-! ## sms_service.py — SMSActivateClient -/

namespace SMSActivateClient

/-- The `SERVICES` dict of `SMSActivateClient`. -/
def SERVICES (s : String) : Option String :=
  if s == "google" then some "go"
  else if s == "gmail" then some "go"
  else if s == "outlook" then some "ot"
  else if s == "microsoft" then some "ot"
  else if s == "yahoo" then some "ya"
  else if s == "facebook" then some "fb"
  else if s == "twitter" then some "tw"
  else if s == "instagram" then some "ig"
  else if s == "amazon" then some "am"
  else if s == "telegram" then some "tg"
  else none

/-- `SMSActivateClient.get_number`: `reply` is the provider's text response to
the `getNumber` request.  Returns the result together with the issued
request. -/
def get_number (service country reply : String) :
    Except GetNumberError PhoneNumber × List SARequest :=
  let service_code := (SERVICES (pyToLower service)).getD service
  let req := SARequest.getNumber service_code country
  if pyStartsWith reply "ACCESS_NUMBER:" then
    let parts := pySplitChar reply ':'
    (.ok ⟨parts.getD 2 "", country, parts.getD 1 "", "sms-activate"⟩, [req])
  else if reply == "NO_NUMBERS" then (.error .noNumbers, [req])
  else if reply == "NO_BALANCE" then (.error .noBalance, [req])
  else (.error (.other reply), [req])

/-- `SMSActivateClient.get_code` on the text response to a `getStatus`
request.  `Except.error` models the `Exception("Activation was cancelled")`
raise; `Except.ok none` covers both `STATUS_WAIT_CODE` and the
unexpected-status branch (which logs a warning and returns `None`). -/
def get_code (result : String) : Except Unit (Option String) :=
  if pyStartsWith result "STATUS_OK:" then
    .ok (some ((pySplitChar result ':').getD 1 ""))
  else if result == "STATUS_WAIT_CODE" then .ok none
  else if result == "STATUS_CANCEL" then .error ()
  else .ok none

/-- The `status_codes` mapping of `SMSActivateClient.set_status` (default 6
for an unknown status name). -/
def statusCodes (status : String) : Int :=
  if status == "done" then 6
  else if status == "cancel" then 8
  else if status == "retry" then -1
  else 6

/-- Loop of `SMSActivateClient.wait_for_code`: poll `get_code`, on a truthy
code `set_status(id, "done")` and return it, otherwise sleep `interval` and
re-check `elapsed < timeout`; on loop exit `set_status(id, "cancel")` and
raise `TimeoutError`.  `oracle n` is the text response to the `n`-th
`getStatus` request.  Fuel exhaustion returns the loop-exit value. -/
def waitLoop (oracle : ℕ → String) (id : String) (interval timeout : ℕ) :
    ℕ → ℕ → ℕ → Except SMSWaitError String × List SARequest
  | 0, _, _ => (.error (.timedOut timeout), [.setStatus id (statusCodes "cancel")])
  | fuel + 1, elapsed, n =>
    if elapsed < timeout then
      match get_code (oracle n) with
      | .error _ => (.error .activationCancelled, [.getStatus id n])
      | .ok code =>
        if pyTruthyStr code then
          (.ok (code.getD ""), [.getStatus id n, .setStatus id (statusCodes "done")])
        else
          let rest := waitLoop oracle id interval timeout fuel (elapsed + interval) (n + 1)
          (rest.1, .getStatus id n :: rest.2)
    else
      (.error (.timedOut timeout), [.setStatus id (statusCodes "cancel")])

/-- `SMSActivateClient.wait_for_code` (the source's defaults are
`timeout = 120`, `poll_interval = 5`; `SMSService.wait_for_code` passes the
timeout and leaves the interval at its default). -/
def wait_for_code (oracle : ℕ → String) (id : String) (timeout poll_interval : ℕ) :
    Except SMSWaitError String × List SARequest :=
  waitLoop oracle id poll_interval timeout (timeout + 1) 0 0

end SMSActivateClient

/-! ## sms_service.py — FiveSimClient -/

/-- One entry of the `"sms"` array in a 5sim `check` response. -/
structure FiveSimSMS where
  code : Option String
  text : Option String
  deriving DecidableEq, Repr

namespace FiveSimClient

/-- The `SERVICES` dict of `FiveSimClient`. -/
def SERVICES (s : String) : Option String :=
  if s == "google" then some "google"
  else if s == "gmail" then some "google"
  else if s == "microsoft" then some "microsoft"
  else if s == "outlook" then some "microsoft"
  else if s == "amazon" then some "amazon"
  else if s == "facebook" then some "facebook"
  else if s == "twitter" then some "twitter"
  else if s == "instagram" then some "instagram"
  else if s == "telegram" then some "telegram"
  else none

/-- `FiveSimClient.get_code` on the decoded `"sms"` array of a `check`
response: if the array is truthy (non-empty), return
`sms[0].get("code") or sms[0].get("text")`, else `None`. -/
def get_code (sms : List FiveSimSMS) : Option String :=
  match sms with
  | first :: _ => pyOrStr first.code first.text
  | [] => none

/-- Loop of `FiveSimClient.wait_for_code`: identical shape to the
SMS-Activate one, with `finish`/`cancel` as the terminal notifications and no
cancelled-activation raise.  Fuel exhaustion returns the loop-exit value. -/
def waitLoop (oracle : ℕ → List FiveSimSMS) (id : String) (interval timeout : ℕ) :
    ℕ → ℕ → ℕ → Except SMSWaitError String × List FSRequest
  | 0, _, _ => (.error (.timedOut timeout), [.cancel id])
  | fuel + 1, elapsed, n =>
    if elapsed < timeout then
      let code := get_code (oracle n)
      if pyTruthyStr code then
        (.ok (code.getD ""), [.check id n, .finish id])
      else
        let rest := waitLoop oracle id interval timeout fuel (elapsed + interval) (n + 1)
        (rest.1, .check id n :: rest.2)
    else
      (.error (.timedOut timeout), [.cancel id])

/-- `FiveSimClient.wait_for_code` (source defaults: `timeout = 120`,
`poll_interval = 5`). -/
def wait_for_code (oracle : ℕ → List FiveSimSMS) (id : String)
    (timeout poll_interval : ℕ) :
    Except SMSWaitError String × List FSRequest :=
  waitLoop oracle id poll_interval timeout (timeout + 1) 0 0

end FiveSimClient

/-! ## sms_service.py — SMSService broker -/

/-- The provider selected by `SMSService.__aenter__`, with its API key. -/
inductive SMSProvider
  | smsActivate (api_key : String)
  | fiveSim (api_key : String)
  deriving DecidableEq, Repr

/-- `SMSActivateClient.__init__` with `SMS_ACTIVATE_API_KEY`. -/
def SMSActivateClient.init (api_key envKey : Option String) : Except String String :=
  match pyOrStr api_key envKey with
  | some k => if k == "" then .error "SMS_ACTIVATE_API_KEY not configured" else .ok k
  | none => .error "SMS_ACTIVATE_API_KEY not configured"

/-- `FiveSimClient.__init__` with `FIVESIM_API_KEY`. -/
def FiveSimClient.init (api_key envKey : Option String) : Except String String :=
  match pyOrStr api_key envKey with
  | some k => if k == "" then .error "FIVESIM_API_KEY not configured" else .ok k
  | none => .error "FIVESIM_API_KEY not configured"

/-- Mutable state of an `SMSService` instance: `self._current_phone`, `None`
on construction. -/
structure SMSServiceState where
  current_phone : Option PhoneNumber
  deriving DecidableEq, Repr

namespace SMSService

/-- `SMSService.__aenter__`: same selection-with-failover shape as the
captcha broker, over `SMS_ACTIVATE_API_KEY` and `FIVESIM_API_KEY`.  No HTTP
request is issued during entry, so the trace of contacted URLs is empty. -/
def aenter (preferred : String) (smsKey fsKey : Option String) :
    Except String SMSProvider × List String :=
  let first := if preferred == "sms-activate"
    then (SMSActivateClient.init none smsKey).map SMSProvider.smsActivate
    else (FiveSimClient.init none fsKey).map SMSProvider.fiveSim
  match first with
  | .ok p => (.ok p, [])
  | .error _ =>
    let second := if preferred == "sms-activate"
      then (FiveSimClient.init none fsKey).map SMSProvider.fiveSim
      else (SMSActivateClient.init none smsKey).map SMSProvider.smsActivate
    match second with
    | .ok p => (.ok p, [])
    | .error _ =>
      (.error "No SMS provider configured. Set SMS_ACTIVATE_API_KEY or FIVESIM_API_KEY", [])

/-- The `country_map` dict of `SMSService.get_number`, mapping a lowercase
country name to the (SMS-Activate code, 5sim name) pair. -/
def country_map (s : String) : Option (String × String) :=
  if s == "usa" then some ("12", "usa")
  else if s == "uk" then some ("16", "england")
  else if s == "russia" then some ("0", "russia")
  else if s == "ukraine" then some ("1", "ukraine")
  else if s == "germany" then some ("43", "germany")
  else none

/-- `SMSService.get_number`, in the `isinstance(self._provider,
SMSActivateClient)` branch (the claims below exercise the SMS-Activate wire
protocol): picks the SMS-Activate country code, calls the provider's
`get_number` on the reply, and assigns `self._current_phone` only when that
call returns (exceptions propagate, leaving the state unchanged). -/
def get_number (st : SMSServiceState) (service country reply : String) :
    Except GetNumberError PhoneNumber × SMSServiceState × List SARequest :=
  let country_code := ((country_map (pyToLower country)).getD (country, country)).1
  let r := SMSActivateClient.get_number service country_code reply
  match r.1 with
  | .ok phone => (.ok phone, ⟨some phone⟩, r.2)
  | .error e => (.error e, st, r.2)

/-- `SMSService.wait_for_code`: raise `ValueError` when no phone has been
acquired, otherwise delegate to the selected provider's `wait_for_code` on
`self._current_phone.activation_id`.  The provider call is abstracted as a
function of the activation id and timeout returning a result and its request
trace, so the guard is provider-independent as in the source. -/
def wait_for_code {Req : Type} (st : SMSServiceState)
    (providerWait : String → ℕ → Except SMSWaitError String × List Req)
    (timeout : ℕ) : Except SMSWaitError String × List Req :=
  match st.current_phone with
  | none => (.error .noActiveLease, [])
  | some p => providerWait p.activation_id timeout

end SMSService

/-! ## Auxiliary definitions for the claims -/

/-- Decidable equality for `Except`, so that concrete runs can be checked by
`decide`. -/
instance {ε α : Type} [DecidableEq ε] [DecidableEq α] : DecidableEq (Except ε α) := fun a b =>
  match a, b with
  | .error e, .error f =>
    match decEq e f with
    | .isTrue h => .isTrue (congrArg Except.error h)
    | .isFalse h => .isFalse (fun hh => h (Except.error.inj hh))
  | .ok x, .ok y =>
    match decEq x y with
    | .isTrue h => .isTrue (congrArg Except.ok h)
    | .isFalse h => .isFalse (fun hh => h (Except.ok.inj hh))
  | .error _, .ok _ => .isFalse (fun hh => Except.noConfusion hh)
  | .ok _, .error _ => .isFalse (fun hh => Except.noConfusion hh)

/-- Number of polls (`getTaskResult` requests) in a CapSolver request trace. -/
def capPollCount (trace : List CapRequest) : ℕ :=
  trace.countP fun r => match r with | .getTaskResult _ => true | _ => false

/-- Whether an SMS-Activate request addresses the given activation id. -/
def SARequest.usesId (id : String) : SARequest → Bool
  | .getNumber _ _ => false
  | .getStatus i _ => i == id
  | .setStatus i _ => i == id

/-- A CapSolver task payload used for concrete runs. -/
def capTask0 : CapTask :=
  ⟨"ReCaptchaV2TaskProxyLess", "https://example.com/signup", "site-key"⟩

/-- A successful `createTask` response without an inline solution. -/
def capCreateOk : CapCreateResponse := ⟨0, none, some "task-1", none⟩

/-- A successful `createTask` response that carries an inline solution. -/
def capCreateInline : CapCreateResponse :=
  ⟨0, none, some "task-2", some ⟨some "tok-inline", none, none⟩⟩

/-- A CapSolver provider stub that always reports "not ready". -/
def capNotReadyStub : ℕ → CapPollResponse :=
  fun _ => ⟨0, none, some "processing", none, none⟩

/-- A CapSolver provider stub that reports "ready" on the first poll with
token `"tok-123"` and cost `0.0021`. -/
def capReadyStub : ℕ → CapPollResponse :=
  fun _ => ⟨0, none, some "ready", some ⟨some "tok-123", none, none⟩, some (21/10000)⟩

/-- A successful 2Captcha `in.php` response with task id `"77"`. -/
def twoCreateOk : TwoCreateResponse := ⟨1, some "77"⟩

/-- A 2Captcha stub that reports the token `"tok-123"` on the first poll,
with a reported cost of `0.0021` in the response body. -/
def twoReadyStub : ℕ → TwoPollResponse :=
  fun _ => ⟨1, some "tok-123", some (21/10000)⟩

/-- A phone lease used as the previously-held lease in concrete runs. -/
def phoneA : PhoneNumber := ⟨"79000000001", "0", "41", "sms-activate"⟩

/-- The phone lease produced by the reply `"ACCESS_NUMBER:42:79001112233"`. -/
def phoneB : PhoneNumber := ⟨"79001112233", "0", "42", "sms-activate"⟩

/-- An SMS-Activate stub that always answers `STATUS_WAIT_CODE`. -/
def saWaitStub : ℕ → String := fun _ => "STATUS_WAIT_CODE"

/-- An SMS-Activate stub that answers `STATUS_OK:1234` at once. -/
def saOkStub : ℕ → String := fun _ => "STATUS_OK:1234"

/-- A 5sim stub that always answers with an empty `"sms"` array. -/
def fsEmptyStub : ℕ → List FiveSimSMS := fun _ => []

/-- A 5sim stub that delivers the code `"1234"` at once. -/
def fsOkStub : ℕ → List FiveSimSMS := fun _ => [⟨some "1234", some "your code is 1234"⟩]

/-! ## Helper lemmas -/

/-- Helper: against an oracle that always answers a non-error, non-ready
status, the CapSolver polling loop times out; its request trace consists of
consecutive polls of a count determined by the timeout, interval and fuel;
and the instrumented wall clock advances by 3 (sleep) plus the poll latency
per poll. -/
theorem CapSolverClient.pollLoop_notReady
    (oracle : ℕ → CapPollResponse) (latency : ℕ → ℕ) (task_id : Option String)
    (timeout : ℕ)
    (h : ∀ k, (oracle k).errorId = 0 ∧ (oracle k).status ≠ some "ready") :
    ∀ fuel elapsed n clock,
      (CapSolverClient.pollLoop oracle latency task_id timeout fuel elapsed n clock).1
          = .error (.timedOut timeout) ∧
      (CapSolverClient.pollLoop oracle latency task_id timeout fuel elapsed n clock).2.1
          = (List.range (min fuel ((timeout - elapsed + 2) / 3))).map
              (fun i => CapRequest.getTaskResult (n + i)) ∧
      (CapSolverClient.pollLoop oracle latency task_id timeout fuel elapsed n clock).2.2
          = clock + 3 * (min fuel ((timeout - elapsed + 2) / 3))
              + ∑ i ∈ Finset.range (min fuel ((timeout - elapsed + 2) / 3)), latency (n + i) := by
  intro fuel
  induction fuel with
  | zero =>
    intro elapsed n clock
    simp [CapSolverClient.pollLoop]
  | succ fuel ih =>
    intro elapsed n clock
    by_cases hel : elapsed < timeout
    · have h0 := h n
      obtain ⟨ih1, ih2, ih3⟩ := ih (elapsed + 3) (n + 1) (clock + 3 + latency n)
      have hmin : min (fuel + 1) ((timeout - elapsed + 2) / 3)
          = min fuel ((timeout - (elapsed + 3) + 2) / 3) + 1 := by omega
      have hstep : CapSolverClient.pollLoop oracle latency task_id timeout (fuel + 1) elapsed n clock
          = ((CapSolverClient.pollLoop oracle latency task_id timeout fuel (elapsed + 3) (n + 1)
                (clock + 3 + latency n)).1,
             .getTaskResult n ::
               (CapSolverClient.pollLoop oracle latency task_id timeout fuel (elapsed + 3) (n + 1)
                (clock + 3 + latency n)).2.1,
             (CapSolverClient.pollLoop oracle latency task_id timeout fuel (elapsed + 3) (n + 1)
                (clock + 3 + latency n)).2.2) := by
        simp only [CapSolverClient.pollLoop]
        simp [hel, h0.1, h0.2]
      rw [hstep, hmin]
      refine ⟨ih1, ?_, ?_⟩
      · rw [ih2, List.range_succ_eq_map]
        have hf : (fun i => CapRequest.getTaskResult (n + 1 + i))
            = (fun i => CapRequest.getTaskResult (n + (i + 1))) := by
          funext i
          congr 1
          omega
        simp [List.map_map, Function.comp_def, hf]
      · rw [ih3, Finset.sum_range_succ']
        have hsum : (∑ i ∈ Finset.range (min fuel ((timeout - (elapsed + 3) + 2) / 3)),
              latency (n + (i + 1)))
            = ∑ i ∈ Finset.range (min fuel ((timeout - (elapsed + 3) + 2) / 3)),
              latency (n + 1 + i) :=
          Finset.sum_congr rfl (fun i _ => by congr 1; omega)
        rw [hsum]
        simp only [Nat.add_zero]
        generalize (∑ i ∈ Finset.range (min fuel ((timeout - (elapsed + 3) + 2) / 3)),
          latency (n + 1 + i)) = S
        omega
    · have hz : timeout - elapsed = 0 := by omega
      simp [CapSolverClient.pollLoop, hel, hz]

/-- Helper: the SMS-Activate wait loop notifies `setStatus(id, done)` exactly
once and never `cancel` when it returns a code, and notifies
`setStatus(id, cancel)` exactly once and never `done` when it times out. -/
theorem SMSActivateClient.waitLoop_notifyCounts
    (oracle : ℕ → String) (id : String) (interval timeout : ℕ) :
    ∀ fuel elapsed n,
      ((SMSActivateClient.waitLoop oracle id interval timeout fuel elapsed n).1.isOk = true →
        (SMSActivateClient.waitLoop oracle id interval timeout fuel elapsed n).2.count
            (SARequest.setStatus id 6) = 1 ∧
        (SMSActivateClient.waitLoop oracle id interval timeout fuel elapsed n).2.count
            (SARequest.setStatus id 8) = 0) ∧
      (∀ t, (SMSActivateClient.waitLoop oracle id interval timeout fuel elapsed n).1
            = .error (.timedOut t) →
        (SMSActivateClient.waitLoop oracle id interval timeout fuel elapsed n).2.count
            (SARequest.setStatus id 8) = 1 ∧
        (SMSActivateClient.waitLoop oracle id interval timeout fuel elapsed n).2.count
            (SARequest.setStatus id 6) = 0) := by
  have hdone : SMSActivateClient.statusCodes "done" = 6 := by decide
  have hcancel : SMSActivateClient.statusCodes "cancel" = 8 := by decide
  intro fuel
  induction fuel with
  | zero =>
    intro elapsed n
    simp [SMSActivateClient.waitLoop, hcancel, List.count_cons, Except.isOk, Except.toBool]
  | succ fuel ih =>
    intro elapsed n
    by_cases hel : elapsed < timeout
    · cases hgc : SMSActivateClient.get_code (oracle n) with
      | error e =>
        simp [SMSActivateClient.waitLoop, hel, hgc, Except.isOk, Except.toBool]
      | ok code =>
        by_cases htr : pyTruthyStr code = true
        · simp [SMSActivateClient.waitLoop, hel, hgc, htr, hdone, List.count_cons]
        · have htr' : pyTruthyStr code = false := by simpa using htr
          obtain ⟨ihOk, ihTO⟩ := ih (elapsed + interval) (n + 1)
          have hstep : SMSActivateClient.waitLoop oracle id interval timeout (fuel + 1) elapsed n
              = ((SMSActivateClient.waitLoop oracle id interval timeout fuel
                    (elapsed + interval) (n + 1)).1,
                 .getStatus id n ::
                   (SMSActivateClient.waitLoop oracle id interval timeout fuel
                    (elapsed + interval) (n + 1)).2) := by
            simp [SMSActivateClient.waitLoop, hel, hgc, htr']
          rw [hstep]
          refine ⟨fun hok => ?_, fun t hto => ?_⟩
          · have hh := ihOk hok
            simp [List.count_cons]
            exact hh
          · have hh := ihTO t hto
            simp [List.count_cons]
            exact hh
    · simp [SMSActivateClient.waitLoop, hel, hcancel, List.count_cons, Except.isOk, Except.toBool]

/-- Helper: the 5sim wait loop issues `finish` exactly once and never `cancel`
when it returns a code, and `cancel` exactly once and never `finish` when it
times out. -/
theorem FiveSimClient.waitLoop_finishCancelCounts
    (oracle : ℕ → List FiveSimSMS) (id : String) (interval timeout : ℕ) :
    ∀ fuel elapsed n,
      ((FiveSimClient.waitLoop oracle id interval timeout fuel elapsed n).1.isOk = true →
        (FiveSimClient.waitLoop oracle id interval timeout fuel elapsed n).2.count
            (FSRequest.finish id) = 1 ∧
        (FiveSimClient.waitLoop oracle id interval timeout fuel elapsed n).2.count
            (FSRequest.cancel id) = 0) ∧
      (∀ t, (FiveSimClient.waitLoop oracle id interval timeout fuel elapsed n).1
            = .error (.timedOut t) →
        (FiveSimClient.waitLoop oracle id interval timeout fuel elapsed n).2.count
            (FSRequest.cancel id) = 1 ∧
        (FiveSimClient.waitLoop oracle id interval timeout fuel elapsed n).2.count
            (FSRequest.finish id) = 0) := by
  intro fuel
  induction fuel with
  | zero =>
    intro elapsed n
    simp [FiveSimClient.waitLoop, List.count_cons, Except.isOk, Except.toBool]
  | succ fuel ih =>
    intro elapsed n
    by_cases hel : elapsed < timeout
    · by_cases htr : pyTruthyStr (FiveSimClient.get_code (oracle n)) = true
      · simp [FiveSimClient.waitLoop, hel, htr, List.count_cons, Except.isOk, Except.toBool]
      · have htr' : pyTruthyStr (FiveSimClient.get_code (oracle n)) = false := by simpa using htr
        obtain ⟨ihOk, ihTO⟩ := ih (elapsed + interval) (n + 1)
        have hstep : FiveSimClient.waitLoop oracle id interval timeout (fuel + 1) elapsed n
            = ((FiveSimClient.waitLoop oracle id interval timeout fuel
                  (elapsed + interval) (n + 1)).1,
               .check id n ::
                 (FiveSimClient.waitLoop oracle id interval timeout fuel
                  (elapsed + interval) (n + 1)).2) := by
          simp [FiveSimClient.waitLoop, hel, htr']
        rw [hstep]
        refine ⟨fun hok => ?_, fun t hto => ?_⟩
        · have hh := ihOk hok
          simp [List.count_cons]
          exact hh
        · have hh := ihTO t hto
          simp [List.count_cons]
          exact hh
    · simp [FiveSimClient.waitLoop, hel, List.count_cons, Except.isOk, Except.toBool]

/-- Helper: every request the SMS-Activate wait loop issues addresses the
activation id it was called with. -/
theorem SMSActivateClient.waitLoop_usesId
    (oracle : ℕ → String) (id : String) (interval timeout : ℕ) :
    ∀ fuel elapsed n e,
      e ∈ (SMSActivateClient.waitLoop oracle id interval timeout fuel elapsed n).2 →
      SARequest.usesId id e = true := by
  intro fuel
  induction fuel with
  | zero =>
    intro elapsed n e he
    simp [SMSActivateClient.waitLoop] at he
    simp [he, SARequest.usesId]
  | succ fuel ih =>
    intro elapsed n e he
    by_cases hel : elapsed < timeout
    · cases hgc : SMSActivateClient.get_code (oracle n) with
      | error x =>
        simp [SMSActivateClient.waitLoop, hel, hgc] at he
        simp [he, SARequest.usesId]
      | ok code =>
        by_cases htr : pyTruthyStr code = true
        · simp [SMSActivateClient.waitLoop, hel, hgc, htr] at he
          rcases he with he | he <;> simp [he, SARequest.usesId]
        · have htr' : pyTruthyStr code = false := by simpa using htr
          simp [SMSActivateClient.waitLoop, hel, hgc, htr'] at he
          rcases he with he | he
          · simp [he, SARequest.usesId]
          · exact ih (elapsed + interval) (n + 1) e he
    · simp [SMSActivateClient.waitLoop, hel] at he
      simp [he, SARequest.usesId]

/-- Helper: the broker-level `wait_for_code` guard — with no current phone the
call fails with the no-active-lease error and issues no provider request. -/
theorem SMSService.wait_for_code_noLease (Req : Type)
    (providerWait : String → ℕ → Except SMSWaitError String × List Req)
    (timeout : ℕ) (st : SMSServiceState) (h : st.current_phone = none) :
    SMSService.wait_for_code st providerWait timeout = (.error .noActiveLease, []) := by
  obtain ⟨cp⟩ := st
  cases cp with
  | none => rfl
  | some p => exact Option.noConfusion h

/-! ## Claims -/

/-- C1 (counterexample): against a stub that always reports "not ready", with
timeout 10 and the CapSolver client's 3-unit poll interval, the run issues
exactly 4 polls and fails with the timeout error, but it does NOT invoke
`cancelTask` exactly once — the number of cancel requests issued is 0, and the
source code has no cancellation call at all. -/
theorem claim_C1_counterexample :
    (CapSolverClient.create_and_wait capTask0 capCreateOk capNotReadyStub (fun _ => 0) 10).2.1.count
        CapRequest.cancelTask = 0 ∧
    ¬ ((CapSolverClient.create_and_wait capTask0 capCreateOk capNotReadyStub
        (fun _ => 0) 10).2.1.count CapRequest.cancelTask = 1) ∧
    (CapSolverClient.create_and_wait capTask0 capCreateOk capNotReadyStub (fun _ => 0) 10).1
        = .error (.timedOut 10) ∧
    capPollCount
        (CapSolverClient.create_and_wait capTask0 capCreateOk capNotReadyStub (fun _ => 0) 10).2.1
        = 4 := by
  decide

/-- C1 (amended): for every CAPTCHA solve call against a provider stub that
always reports "not ready", with a configured timeout of 10 time-units and
the CapSolver client's 3-time-unit poll interval, the polling engine issues
exactly 4 polls and then fails with the timeout error; it invokes
`cancelTask` zero times (the client defines no cancellation call, so the
remote task is not cancelled on timeout). -/
theorem claim_C1 (task : CapTask) (create : CapCreateResponse)
    (oracle : ℕ → CapPollResponse) (latency : ℕ → ℕ)
    (hc : create.errorId = 0) (hs : create.solution = none)
    (h : ∀ k, (oracle k).errorId = 0 ∧ (oracle k).status ≠ some "ready") :
    (CapSolverClient.create_and_wait task create oracle latency 10).1
        = .error (.timedOut 10) ∧
    (CapSolverClient.create_and_wait task create oracle latency 10).2.1
        = [.createTask task, .getTaskResult 0, .getTaskResult 1, .getTaskResult 2,
           .getTaskResult 3] ∧
    (CapSolverClient.create_and_wait task create oracle latency 10).2.1.count
        CapRequest.cancelTask = 0 := by
  obtain ⟨h1, h2, h3⟩ :=
    CapSolverClient.pollLoop_notReady oracle latency create.taskId 10 h 11 0 0 0
  have hcw : CapSolverClient.create_and_wait task create oracle latency 10
      = ((CapSolverClient.pollLoop oracle latency create.taskId 10 11 0 0 0).1,
         .createTask task ::
           (CapSolverClient.pollLoop oracle latency create.taskId 10 11 0 0 0).2.1,
         (CapSolverClient.pollLoop oracle latency create.taskId 10 11 0 0 0).2.2) := by
    simp [CapSolverClient.create_and_wait, hc, hs]
  rw [hcw]
  have hmin : min 11 ((10 - 0 + 2) / 3) = 4 := by norm_num
  refine ⟨h1, ?_, ?_⟩
  · rw [h2, hmin]
    rfl
  · rw [List.count_cons]
    rw [h2, hmin]
    simp
    decide

/-- Witness for C1's amended theorem at a concrete not-ready stub. -/
theorem claim_C1_witness :
    (CapSolverClient.create_and_wait capTask0 capCreateOk capNotReadyStub (fun _ => 0) 10).1
        = .error (.timedOut 10) ∧
    (CapSolverClient.create_and_wait capTask0 capCreateOk capNotReadyStub (fun _ => 0) 10).2.1
        = [.createTask capTask0, .getTaskResult 0, .getTaskResult 1, .getTaskResult 2,
           .getTaskResult 3] ∧
    (CapSolverClient.create_and_wait capTask0 capCreateOk capNotReadyStub (fun _ => 0) 10).2.1.count
        CapRequest.cancelTask = 0 :=
  claim_C1 capTask0 capCreateOk capNotReadyStub (fun _ => 0) rfl rfl
    (fun _ => ⟨rfl, by show some "processing" ≠ some "ready"; decide⟩)

/-- C3 (counterexample): with timeout 10, poll interval 3, an always-not-ready
stub and a constant poll round-trip latency of 5 time-units, the wall-clock
time before the engine declares timeout is 32 time-units, which exceeds the
timeout budget by more than one poll interval (10 + 3 = 13): the `elapsed`
counter advances only by the nominal interval and does not include the
network round trips. -/
theorem claim_C3_counterexample :
    (CapSolverClient.create_and_wait capTask0 capCreateOk capNotReadyStub (fun _ => 5) 10).2.2
        = 32 ∧
    ¬ ((CapSolverClient.create_and_wait capTask0 capCreateOk capNotReadyStub
        (fun _ => 5) 10).2.2 ≤ 10 + 3) := by
  decide

/-- C3 (amended): the poll interval is counted by an `elapsed` counter that
advances by the 3-unit interval per iteration and excludes the network
round-trip durations.  Consequently, for an always-not-ready stub, the
counted sleep time `3 × polls` never exceeds the timeout budget plus one
interval (minus one), but the wall-clock time equals `3 × polls` plus the sum
of all poll round-trip latencies, which can exceed the budget without bound. -/
theorem claim_C3 (task : CapTask) (create : CapCreateResponse)
    (oracle : ℕ → CapPollResponse) (latency : ℕ → ℕ) (timeout : ℕ)
    (hc : create.errorId = 0) (hs : create.solution = none)
    (h : ∀ k, (oracle k).errorId = 0 ∧ (oracle k).status ≠ some "ready") :
    (CapSolverClient.create_and_wait task create oracle latency timeout).1
        = .error (.timedOut timeout) ∧
    (CapSolverClient.create_and_wait task create oracle latency timeout).2.2
        = 3 * capPollCount (CapSolverClient.create_and_wait task create oracle latency timeout).2.1
          + ∑ i ∈ Finset.range
              (capPollCount
                (CapSolverClient.create_and_wait task create oracle latency timeout).2.1),
              latency i ∧
    3 * capPollCount (CapSolverClient.create_and_wait task create oracle latency timeout).2.1
        ≤ timeout + 2 := by
  obtain ⟨h1, h2, h3⟩ :=
    CapSolverClient.pollLoop_notReady oracle latency create.taskId timeout h
      (timeout + 1) 0 0 0
  have hcw : CapSolverClient.create_and_wait task create oracle latency timeout
      = ((CapSolverClient.pollLoop oracle latency create.taskId timeout (timeout + 1) 0 0 0).1,
         .createTask task ::
           (CapSolverClient.pollLoop oracle latency create.taskId timeout (timeout + 1) 0 0 0).2.1,
         (CapSolverClient.pollLoop oracle latency create.taskId timeout (timeout + 1) 0 0 0).2.2) := by
    simp [CapSolverClient.create_and_wait, hc, hs]
  have hcount : capPollCount
      (CapSolverClient.create_and_wait task create oracle latency timeout).2.1
      = min (timeout + 1) ((timeout - 0 + 2) / 3) := by
    rw [hcw]
    simp [capPollCount, h2, List.countP_cons, List.countP_map, Function.comp_def,
      List.countP_true, List.length_range]
  rw [hcount]
  refine ⟨?_, ?_, ?_⟩
  · rw [hcw]
    exact h1
  · rw [hcw]
    simpa using h3
  · omega

/-- Witness for C3's amended theorem at a concrete not-ready stub with
constant poll latency 5 and timeout 10. -/
theorem claim_C3_witness :
    (CapSolverClient.create_and_wait capTask0 capCreateOk capNotReadyStub (fun _ => 5) 10).1
        = .error (.timedOut 10) ∧
    (CapSolverClient.create_and_wait capTask0 capCreateOk capNotReadyStub (fun _ => 5) 10).2.2
        = 3 * capPollCount
              (CapSolverClient.create_and_wait capTask0 capCreateOk capNotReadyStub
                (fun _ => 5) 10).2.1
          + ∑ _i ∈ Finset.range
              (capPollCount
                (CapSolverClient.create_and_wait capTask0 capCreateOk capNotReadyStub
                  (fun _ => 5) 10).2.1), 5 ∧
    3 * capPollCount
        (CapSolverClient.create_and_wait capTask0 capCreateOk capNotReadyStub
          (fun _ => 5) 10).2.1 ≤ 10 + 2 :=
  claim_C3 capTask0 capCreateOk capNotReadyStub (fun _ => 5) 10 rfl rfl
    (fun _ => ⟨rfl, by show some "processing" ≠ some "ready"; decide⟩)

/-- C2: on broker entry, if the preferred provider's API key is absent the
broker selects the alternate provider (carrying the alternate's configured
key), and if neither key is configured entry fails with the no-provider
error; in every case the selection issues no network request (the trace of
contacted URLs is empty), so it completes before any task is created.  Stated
for both the CAPTCHA broker and the SMS broker with their default preferred
providers. -/
theorem claim_C2 (capKey twoKey smsKey fsKey : Option String) (t u : String) :
    (absentKey capKey → twoKey = some t → t ≠ "" →
      CaptchaSolver.aenter "capsolver" capKey twoKey = (.ok (.twocaptcha t), [])) ∧
    (absentKey capKey → absentKey twoKey →
      CaptchaSolver.aenter "capsolver" capKey twoKey =
        (.error "No CAPTCHA solver configured. Set CAPSOLVER_API_KEY or TWO_CAPTCHA_API_KEY",
         [])) ∧
    (absentKey smsKey → fsKey = some u → u ≠ "" →
      SMSService.aenter "sms-activate" smsKey fsKey = (.ok (.fiveSim u), [])) ∧
    (absentKey smsKey → absentKey fsKey →
      SMSService.aenter "sms-activate" smsKey fsKey =
        (.error "No SMS provider configured. Set SMS_ACTIVATE_API_KEY or FIVESIM_API_KEY",
         [])) := by
  refine ⟨?_, ?_, ?_, ?_⟩
  · rintro (rfl | rfl) rfl ht <;>
      simp [CaptchaSolver.aenter, CapSolverClient.init, TwoCaptchaClient.init, pyOrStr,
        Except.map, ht]
  · rintro (rfl | rfl) (rfl | rfl) <;>
      simp [CaptchaSolver.aenter, CapSolverClient.init, TwoCaptchaClient.init, pyOrStr,
        Except.map]
  · rintro (rfl | rfl) rfl ht <;>
      simp [SMSService.aenter, SMSActivateClient.init, FiveSimClient.init, pyOrStr,
        Except.map, ht]
  · rintro (rfl | rfl) (rfl | rfl) <;>
      simp [SMSService.aenter, SMSActivateClient.init, FiveSimClient.init, pyOrStr,
        Except.map]

/-- Witness for C2 at concrete key configurations: preferred key absent with
alternate configured (both brokers), and both keys absent (both brokers). -/
theorem claim_C2_witness :
    CaptchaSolver.aenter "capsolver" none (some "2captcha-key")
        = (.ok (.twocaptcha "2captcha-key"), []) ∧
    CaptchaSolver.aenter "capsolver" none none
        = (.error "No CAPTCHA solver configured. Set CAPSOLVER_API_KEY or TWO_CAPTCHA_API_KEY",
           []) ∧
    SMSService.aenter "sms-activate" (some "") (some "fivesim-key")
        = (.ok (.fiveSim "fivesim-key"), []) ∧
    SMSService.aenter "sms-activate" (some "") none
        = (.error "No SMS provider configured. Set SMS_ACTIVATE_API_KEY or FIVESIM_API_KEY",
           []) :=
  ⟨(claim_C2 none (some "2captcha-key") none none "2captcha-key" "x").1
      (Or.inl rfl) rfl (by decide),
   (claim_C2 none none none none "x" "x").2.1 (Or.inl rfl) (Or.inl rfl),
   (claim_C2 none none (some "") (some "fivesim-key") "x" "fivesim-key").2.2.1
      (Or.inr rfl) rfl (by decide),
   (claim_C2 none none (some "") none "x" "x").2.2.2 (Or.inr rfl) (Or.inl rfl)⟩

/-- C4 (counterexample): calling `get_number` while a previous lease
(`phoneA`) is still held is NOT rejected — it succeeds and silently replaces
the held lease with the new one (`phoneB`). -/
theorem claim_C4_counterexample :
    (SMSService.get_number ⟨some phoneA⟩ "google" "russia" "ACCESS_NUMBER:42:79001112233").1
        = .ok phoneB ∧
    (SMSService.get_number ⟨some phoneA⟩ "google" "russia" "ACCESS_NUMBER:42:79001112233").2.1
        = ⟨some phoneB⟩ ∧
    phoneB ≠ phoneA := by
  decide

/-- C4 (amended): an `SMSService` instance tracks at most one lease
(`_current_phone` is a single optional value); `wait_for_code` always
delegates to the activation id of the lease most recently acquired, and every
provider request the SMS-Activate wait loop issues addresses that id.
However, a second `get_number` while a lease is held is not rejected: the
outcome of `get_number` is independent of the held lease, and any successful
call silently replaces the held lease with the new one. -/
theorem claim_C4 :
    (∀ st st' : SMSServiceState, ∀ service country reply : String,
      (SMSService.get_number st service country reply).1
        = (SMSService.get_number st' service country reply).1) ∧
    (∀ (st : SMSServiceState) (service country reply : String) (p : PhoneNumber),
      (SMSService.get_number st service country reply).1 = .ok p →
      (SMSService.get_number st service country reply).2.1 = ⟨some p⟩) ∧
    (∀ (Req : Type) (providerWait : String → ℕ → Except SMSWaitError String × List Req)
       (st : SMSServiceState) (p : PhoneNumber) (timeout : ℕ),
      st.current_phone = some p →
      SMSService.wait_for_code st providerWait timeout
        = providerWait p.activation_id timeout) ∧
    (∀ (oracle : ℕ → String) (id : String) (timeout interval : ℕ),
      ∀ e ∈ (SMSActivateClient.wait_for_code oracle id timeout interval).2,
        SARequest.usesId id e = true) := by
  refine ⟨?_, ?_, ?_, ?_⟩
  · intro st st' service country reply
    cases h : (SMSActivateClient.get_number service
        ((SMSService.country_map (pyToLower country)).getD (country, country)).1 reply).1 <;>
      simp [SMSService.get_number, h]
  · intro st service country reply p
    simp only [SMSService.get_number]
    cases (SMSActivateClient.get_number service
        ((SMSService.country_map (pyToLower country)).getD (country, country)).1 reply).1 <;>
      simp
  · intro Req providerWait st p timeout hp
    obtain ⟨cp⟩ := st
    cases cp with
    | none => exact Option.noConfusion hp
    | some q =>
      have hq : q = p := Option.some.inj hp
      subst hq
      rfl
  · intro oracle id timeout interval e he
    exact SMSActivateClient.waitLoop_usesId oracle id interval timeout (timeout + 1) 0 0 e he

/-- Witness for C4's amended theorem at concrete inputs: a replacement run and
a delegated wait on the most recently acquired lease. -/
theorem claim_C4_witness :
    (SMSService.get_number ⟨some phoneA⟩ "google" "russia" "ACCESS_NUMBER:42:79001112233").1
        = (SMSService.get_number ⟨none⟩ "google" "russia" "ACCESS_NUMBER:42:79001112233").1 ∧
    (SMSService.get_number ⟨some phoneA⟩ "google" "russia" "ACCESS_NUMBER:42:79001112233").2.1
        = ⟨some phoneB⟩ ∧
    SMSService.wait_for_code ⟨some phoneB⟩
        (fun id t => SMSActivateClient.wait_for_code saWaitStub id t 5) 10
        = SMSActivateClient.wait_for_code saWaitStub phoneB.activation_id 10 5 ∧
    (∀ e ∈ (SMSActivateClient.wait_for_code saWaitStub "42" 10 5).2,
      SARequest.usesId "42" e = true) :=
  ⟨claim_C4.1 ⟨some phoneA⟩ ⟨none⟩ "google" "russia" "ACCESS_NUMBER:42:79001112233",
   claim_C4.2.1 ⟨some phoneA⟩ "google" "russia" "ACCESS_NUMBER:42:79001112233" phoneB
     (by decide),
   claim_C4.2.2.1 SARequest (fun id t => SMSActivateClient.wait_for_code saWaitStub id t 5)
     ⟨some phoneB⟩ phoneB 10 rfl,
   fun e he => claim_C4.2.2.2 saWaitStub "42" 10 5 e he⟩

/-- C5: for every `wait_for_code` call that returns a code, the client
notifies the provider exactly once that the activation is done (SMS-Activate:
`setStatus` with code 6; 5sim: `finish`) and never cancels; for every call
that fails with the timeout error, the client notifies cancel exactly once
(SMS-Activate: `setStatus` with code 8; 5sim: `cancel`) and never done.
Stated for both SMS provider clients, all oracles, timeouts and intervals. -/
theorem claim_C5 (oracle : ℕ → String) (fsOracle : ℕ → List FiveSimSMS) (id : String)
    (timeout interval : ℕ) :
    ((SMSActivateClient.wait_for_code oracle id timeout interval).1.isOk = true →
      (SMSActivateClient.wait_for_code oracle id timeout interval).2.count
          (SARequest.setStatus id 6) = 1 ∧
      (SMSActivateClient.wait_for_code oracle id timeout interval).2.count
          (SARequest.setStatus id 8) = 0) ∧
    (∀ t, (SMSActivateClient.wait_for_code oracle id timeout interval).1
          = .error (.timedOut t) →
      (SMSActivateClient.wait_for_code oracle id timeout interval).2.count
          (SARequest.setStatus id 8) = 1 ∧
      (SMSActivateClient.wait_for_code oracle id timeout interval).2.count
          (SARequest.setStatus id 6) = 0) ∧
    ((FiveSimClient.wait_for_code fsOracle id timeout interval).1.isOk = true →
      (FiveSimClient.wait_for_code fsOracle id timeout interval).2.count
          (FSRequest.finish id) = 1 ∧
      (FiveSimClient.wait_for_code fsOracle id timeout interval).2.count
          (FSRequest.cancel id) = 0) ∧
    (∀ t, (FiveSimClient.wait_for_code fsOracle id timeout interval).1
          = .error (.timedOut t) →
      (FiveSimClient.wait_for_code fsOracle id timeout interval).2.count
          (FSRequest.cancel id) = 1 ∧
      (FiveSimClient.wait_for_code fsOracle id timeout interval).2.count
          (FSRequest.finish id) = 0) := by
  obtain ⟨saOk, saTO⟩ :=
    SMSActivateClient.waitLoop_notifyCounts oracle id interval timeout (timeout + 1) 0 0
  obtain ⟨fsOk, fsTO⟩ :=
    FiveSimClient.waitLoop_finishCancelCounts fsOracle id interval timeout (timeout + 1) 0 0
  exact ⟨saOk, saTO, fsOk, fsTO⟩

/-- Witness for C5 at concrete stubs: the SMS-Activate client with a stub
that delivers a code at once (success path) and both clients with stubs that
never deliver (timeout path), plus the 5sim success path. -/
theorem claim_C5_witness :
    ((SMSActivateClient.wait_for_code saOkStub "42" 10 5).2.count
        (SARequest.setStatus "42" 6) = 1 ∧
     (SMSActivateClient.wait_for_code saOkStub "42" 10 5).2.count
        (SARequest.setStatus "42" 8) = 0) ∧
    ((SMSActivateClient.wait_for_code saWaitStub "42" 10 5).2.count
        (SARequest.setStatus "42" 8) = 1 ∧
     (SMSActivateClient.wait_for_code saWaitStub "42" 10 5).2.count
        (SARequest.setStatus "42" 6) = 0) ∧
    ((FiveSimClient.wait_for_code fsOkStub "42" 10 5).2.count (FSRequest.finish "42") = 1 ∧
     (FiveSimClient.wait_for_code fsOkStub "42" 10 5).2.count (FSRequest.cancel "42") = 0) ∧
    ((FiveSimClient.wait_for_code fsEmptyStub "42" 10 5).2.count (FSRequest.cancel "42") = 1 ∧
     (FiveSimClient.wait_for_code fsEmptyStub "42" 10 5).2.count (FSRequest.finish "42") = 0) :=
  ⟨(claim_C5 saOkStub fsOkStub "42" 10 5).1 (by decide),
   (claim_C5 saWaitStub fsOkStub "42" 10 5).2.1 10 (by decide),
   (claim_C5 saOkStub fsOkStub "42" 10 5).2.2.1 (by decide),
   (claim_C5 saOkStub fsEmptyStub "42" 10 5).2.2.2 10 (by decide)⟩

/-- C6: calling `wait_for_code` on a fresh `SMSService` instance (no phone
acquired) fails with the no-active-lease error and issues no provider
request, whatever provider is selected and whatever the timeout. -/
theorem claim_C6 (Req : Type)
    (providerWait : String → ℕ → Except SMSWaitError String × List Req)
    (timeout : ℕ) (st : SMSServiceState) (h : st.current_phone = none) :
    SMSService.wait_for_code st providerWait timeout = (.error .noActiveLease, []) :=
  SMSService.wait_for_code_noLease Req providerWait timeout st h

/-- Witness for C6 on a fresh instance with the SMS-Activate provider. -/
theorem claim_C6_witness :
    SMSService.wait_for_code ⟨none⟩
        (fun id t => SMSActivateClient.wait_for_code saWaitStub id t 5) 120
        = (.error .noActiveLease, []) :=
  claim_C6 SARequest (fun id t => SMSActivateClient.wait_for_code saWaitStub id t 5)
    120 ⟨none⟩ rfl

/-- C7: a `get_number` answered with `NO_NUMBERS` fails with the
no-numbers-available error, distinguished from the insufficient-balance error
raised on `NO_BALANCE`; the broker state is unchanged, so no lease is created
and a subsequent `wait_for_code` still fails with the no-active-lease error
having issued no provider request. -/
theorem claim_C7 (st : SMSServiceState) (service country : String) (Req : Type)
    (providerWait : String → ℕ → Except SMSWaitError String × List Req)
    (timeout : ℕ) (h : st.current_phone = none) :
    (SMSService.get_number st service country "NO_NUMBERS").1 = .error .noNumbers ∧
    (SMSService.get_number st service country "NO_NUMBERS").2.1 = st ∧
    (SMSService.get_number st service country "NO_BALANCE").1 = .error .noBalance ∧
    GetNumberError.noNumbers ≠ GetNumberError.noBalance ∧
    SMSService.wait_for_code (SMSService.get_number st service country "NO_NUMBERS").2.1
        providerWait timeout = (.error .noActiveLease, []) := by
  have h1 : pyStartsWith "NO_NUMBERS" "ACCESS_NUMBER:" = false := by decide
  have h2 : pyStartsWith "NO_BALANCE" "ACCESS_NUMBER:" = false := by decide
  have hno : (SMSService.get_number st service country "NO_NUMBERS").1 = .error .noNumbers ∧
      (SMSService.get_number st service country "NO_NUMBERS").2.1 = st := by
    simp [SMSService.get_number, SMSActivateClient.get_number, h1]
  have hbal : (SMSService.get_number st service country "NO_BALANCE").1
      = .error .noBalance := by
    simp [SMSService.get_number, SMSActivateClient.get_number, h2]
  refine ⟨hno.1, hno.2, hbal, by simp, ?_⟩
  rw [hno.2]
  exact SMSService.wait_for_code_noLease Req providerWait timeout st h

/-- Witness for C7 on a fresh instance with concrete service and country. -/
theorem claim_C7_witness :
    (SMSService.get_number ⟨none⟩ "google" "russia" "NO_NUMBERS").1 = .error .noNumbers ∧
    (SMSService.get_number ⟨none⟩ "google" "russia" "NO_NUMBERS").2.1 = ⟨none⟩ ∧
    (SMSService.get_number ⟨none⟩ "google" "russia" "NO_BALANCE").1 = .error .noBalance ∧
    GetNumberError.noNumbers ≠ GetNumberError.noBalance ∧
    SMSService.wait_for_code (SMSService.get_number ⟨none⟩ "google" "russia" "NO_NUMBERS").2.1
        (fun id t => SMSActivateClient.wait_for_code saWaitStub id t 5) 120
        = (.error .noActiveLease, []) :=
  claim_C7 ⟨none⟩ "google" "russia" SARequest
    (fun id t => SMSActivateClient.wait_for_code saWaitStub id t 5) 120 rfl

/-- C8 (counterexample): against a 2Captcha stub that reports "ready" on the
first poll with token `"tok-123"` and a reported cost of `0.0021`, the
returned solution carries the token but cost `0`, not `0.0021` — the
2Captcha client never reads a cost, so the claim fails for that provider. -/
theorem claim_C8_counterexample :
    (TwoCaptchaClient.create_and_wait twoCreateOk twoReadyStub 120).1
        = .ok ⟨some "tok-123", some "77", "2captcha", 0⟩ ∧
    (TwoCaptchaClient.create_and_wait twoCreateOk twoReadyStub 120).1
        ≠ .ok ⟨some "tok-123", some "77", "2captcha", 21/10000⟩ := by
  constructor
  · rfl
  · intro hcontra
    rw [show (TwoCaptchaClient.create_and_wait twoCreateOk twoReadyStub 120).1
        = .ok ⟨some "tok-123", some "77", "2captcha", 0⟩ from rfl] at hcontra
    simp only [Except.ok.injEq, CaptchaSolution.mk.injEq] at hcontra
    have : (0 : ℚ) = 21 / 10000 := hcontra.2.2.2
    norm_num at this

/-- C8 (amended): against a provider stub that answers "ready" on the first
poll, both clients return after exactly that one poll (trace = create
followed by a single poll, zero additional polls).  The CapSolver client's
solution carries the token and the cost reported by the stub; the 2Captcha
client's solution carries the token from the `request` field but always cost
`0` — that client never reads a cost from the provider response. -/
theorem claim_C8 :
    (∀ (task : CapTask) (create : CapCreateResponse) (oracle : ℕ → CapPollResponse)
       (latency : ℕ → ℕ) (timeout : ℕ),
      create.errorId = 0 → create.solution = none →
      (oracle 0).errorId = 0 → (oracle 0).status = some "ready" → 0 < timeout →
      CapSolverClient.create_and_wait task create oracle latency timeout
        = (.ok ⟨pyOrStr
                  (pyOrStr ((oracle 0).solution.getD ⟨none, none, none⟩).gRecaptchaResponse
                    ((oracle 0).solution.getD ⟨none, none, none⟩).token)
                  ((oracle 0).solution.getD ⟨none, none, none⟩).text,
                create.taskId, "capsolver", ((oracle 0).cost).getD 0⟩,
           [.createTask task, .getTaskResult 0], 3 + latency 0)) ∧
    (∀ (create : TwoCreateResponse) (oracle : ℕ → TwoPollResponse) (timeout : ℕ),
      create.status = 1 → (oracle 0).status = 1 → 0 < timeout →
      TwoCaptchaClient.create_and_wait create oracle timeout
        = (.ok ⟨(oracle 0).request, create.request, "2captcha", 0⟩,
           [.inPhp, .resPhp 0])) := by
  constructor
  · intro task create oracle latency timeout hc hs h0e h0r ht
    simp [CapSolverClient.create_and_wait, CapSolverClient.pollLoop, hc, hs, h0e, h0r, ht]
  · intro create oracle timeout hc h0 ht
    simp [TwoCaptchaClient.create_and_wait, TwoCaptchaClient.pollLoop, hc, h0, ht]

/-- Witness for C8's amended theorem at the concrete ready stubs with token
`"tok-123"` and reported cost `0.0021`. -/
theorem claim_C8_witness :
    CapSolverClient.create_and_wait capTask0 capCreateOk capReadyStub (fun _ => 0) 120
        = (.ok ⟨some "tok-123", some "task-1", "capsolver", 21/10000⟩,
           [.createTask capTask0, .getTaskResult 0], 3 + 0) ∧
    TwoCaptchaClient.create_and_wait twoCreateOk twoReadyStub 120
        = (.ok ⟨some "tok-123", some "77", "2captcha", 0⟩, [.inPhp, .resPhp 0]) :=
  ⟨claim_C8.1 capTask0 capCreateOk capReadyStub (fun _ => 0) 120 rfl rfl rfl rfl (by decide),
   claim_C8.2 twoCreateOk twoReadyStub 120 rfl rfl (by decide)⟩

/-- C9: when the `createTask` response already contains a truthy inline
solution, the client returns it immediately (token = `gRecaptchaResponse` or
`token` of the inline solution object) and the request trace is the creation
request alone — zero polls are issued, for every oracle and timeout. -/
theorem claim_C9 (task : CapTask) (create : CapCreateResponse)
    (oracle : ℕ → CapPollResponse) (latency : ℕ → ℕ) (timeout : ℕ)
    (sol : CapSolutionObj) (hc : create.errorId = 0) (hs : create.solution = some sol) :
    CapSolverClient.create_and_wait task create oracle latency timeout
      = (.ok ⟨pyOrStr sol.gRecaptchaResponse sol.token, create.taskId, "capsolver", 0⟩,
         [.createTask task], 0) := by
  simp [CapSolverClient.create_and_wait, hc, hs]

/-- Witness for C9 at a concrete inline-solution create response. -/
theorem claim_C9_witness :
    CapSolverClient.create_and_wait capTask0 capCreateInline capNotReadyStub (fun _ => 0) 120
      = (.ok ⟨some "tok-inline", some "task-2", "capsolver", 0⟩, [.createTask capTask0], 0) :=
  claim_C9 capTask0 capCreateInline capNotReadyStub (fun _ => 0) 120
    ⟨some "tok-inline", none, none⟩ rfl rfl

/-- C10: for every `CaptchaSolver` whose selected provider is the 2Captcha
client (the alternate after failover), `solve_turnstile` fails with
`NotImplementedError` and issues no request at all, for every stubbed
provider behaviour and page parameters. -/
theorem claim_C10 (api_key : String) (create : CapCreateResponse)
    (oracle : ℕ → CapPollResponse) (latency : ℕ → ℕ) (site_key url : String) :
    CaptchaSolver.solve_turnstile (.twocaptcha api_key) create oracle latency site_key url
      = (.error .notImplemented, []) :=
  rfl
